import Mathlib

/-!
Shallow embedding of the two notebooks of this repository:

* `examples/timeseries/ipynb/timeseries_classification_transformer.ipynb`
  (namespace `TimeseriesTransformer`): the UCR data loader (`readucr`,
  reshape, shuffle, label remap) and the symbolic layer graph built by
  `transformer_encoder` / `build_model`.
* `guides/ipynb/training_keras_models_on_cloud.ipynb`
  (namespace `CloudTraining`): the configuration constants, the
  `tfc.remote()`-guarded fit paths, the `requirements.txt` write and the
  `tfc.run` call.

External library behaviour (numpy, keras, tensorflow-cloud) is modelled only
at the interface the notebooks use: `np.loadtxt` as tab-splitting plus a
numeric-parse parameter, arrays as lists, keras layer constructors as nodes
of a symbolic tensor tree, and the cloud calls as records of the arguments
the notebook passes.
-/

namespace TimeseriesTransformer

/-- Model of `np.loadtxt(filename, delimiter="\t")` applied to the lines of
the file: each line is split on tabs and each field is parsed to a number.
The float parser itself is numpy internals, so it is a parameter. -/
def loadtxtTab (parse : String → ℚ) (lines : List String) : List (List ℚ) :=
  lines.map fun line => (line.splitOn ("\t")).map parse

/-- Model of numpy `astype(int)` on a float value: truncation toward zero. -/
def truncToInt (q : ℚ) : Int := if q < 0 then ⌈q⌉ else ⌊q⌋

/-- The column extraction of `readucr`, applied to the numeric matrix
`data = np.loadtxt(filename, delimiter="\t")`:
`y = data[:, 0]; x = data[:, 1:]; return x, y.astype(int)`. -/
def readucr (data : List (List ℚ)) : List (List ℚ) × List Int :=
  let y := data.map fun row => row.headD 0
  let x := data.map fun row => row.drop 1
  (x, y.map truncToInt)

/-- `readucr` applied to the lines of the tab-separated file itself, i.e.
the whole body of the notebook's `readucr` including the `np.loadtxt` step. -/
def readucrFile (parse : String → ℚ) (lines : List String) :
    List (List ℚ) × List Int :=
  readucr (loadtxtTab parse lines)

/-- Row-major regrouping of a flat list into rows of `k` elements, the
flatten-and-refill semantics of a numpy C-order `reshape`; the fuel argument
(instantiated with the list length by `chunkRows`) only forces termination. -/
def chunkRowsAux (k : Nat) : Nat → List ℚ → List (List ℚ)
  | 0, _ => []
  | _, [] => []
  | fuel + 1, x :: xs => (x :: xs).take k :: chunkRowsAux k fuel ((x :: xs).drop k)

/-- Row-major regrouping of a flat list into rows of `k` elements. -/
def chunkRows (k : Nat) (l : List ℚ) : List (List ℚ) :=
  chunkRowsAux k l.length l

/-- `x.reshape((x.shape[0], x.shape[1], 1))`: flatten in row-major order,
regroup into rows of `x.shape[1]` scalars, and wrap each scalar as a length-1
innermost axis. (numpy's total-size check is performed by numpy itself;
the claims about this reshape assume a rectangular input.) -/
def reshape3 (m : List (List ℚ)) : List (List (List ℚ)) :=
  (chunkRows (m.headD []).length m.flatten).map fun row => row.map fun v => [v]

/-- numpy fancy indexing `a[idx]` for an index array `idx` (with a default
for out-of-range indices; the notebook only indexes with a permutation of
`range(len(a))`, which is always in range). -/
def fancyIndex (l : List α) (idx : List Nat) (d : α) : List α :=
  idx.map fun i => l.getD i d

/-- The in-place label remap `y[y == -1] = 0`. -/
def remapLabels (y : List Int) : List Int :=
  y.map fun v => if v = -1 then 0 else v

/-- `len(np.unique(y_train))`: the number of distinct labels. -/
def nClasses (y : List Int) : Nat := y.dedup.length

/-- The arrays held by the notebook after the load/preprocess cell. -/
structure LoadedData where
  x_train : List (List (List ℚ))
  y_train : List Int
  x_test : List (List (List ℚ))
  y_test : List Int
  n_classes : Nat

/-- The whole load/preprocess cell of the timeseries notebook, in source
order: two `readucr` calls (on the already-parsed numeric matrices of the
two files), the two reshapes, `n_classes`, the shared-index shuffle of the
training pair, and the label remaps of `y_train` and `y_test`. `idx` stands
for the value of `np.random.permutation(len(x_train))`. -/
def loadAndPreprocess (trainData testData : List (List ℚ))
    (idx : List Nat) : LoadedData :=
  let tr := readucr trainData
  let te := readucr testData
  let xtr := reshape3 tr.1
  let xte := reshape3 te.1
  let nc := nClasses tr.2
  let xtr := fancyIndex xtr idx []
  let ytr := fancyIndex tr.2 idx 0
  let ytr := remapLabels ytr
  let yte := remapLabels te.2
  ⟨xtr, ytr, xte, yte, nc⟩

/-- Symbolic keras tensors: one constructor per layer application the
notebook performs, holding the constructor arguments the notebook passes. -/
inductive T where
  | input (shape : List Nat)
  | layerNorm (eps : ℚ) (x : T)
  | multiHeadAttention (keyDim numHeads : Nat) (dropoutRate : ℚ) (query value : T)
  | dropoutL (rate : ℚ) (x : T)
  | add (a b : T)
  | conv1D (filters kernelSize : Nat) (activation : Option String) (x : T)
  | globalAvgPool1D (dataFormat : String) (x : T)
  | dense (units : Nat) (activation : Option String) (x : T)
deriving DecidableEq, Repr

/-- The non-batch shape of a symbolic tensor (keras `t.shape[1:]`), as needed
for the `inputs.shape[-1]` read inside `transformer_encoder`. -/
def tshape : T → List Nat
  | .input s => s
  | .layerNorm _ x => tshape x
  | .multiHeadAttention _ _ _ q _ => tshape q
  | .dropoutL _ x => tshape x
  | .add a _ => tshape a
  | .conv1D f _ _ x => (tshape x).dropLast ++ [f]
  | .globalAvgPool1D fmt x =>
      if fmt = "channels_first" then (tshape x).dropLast else (tshape x).drop 1
  | .dense u _ x => (tshape x).dropLast ++ [u]

/-- `transformer_encoder(inputs, head_size, num_heads, ff_dim, dropout=0)`,
line for line: LayerNormalization, MultiHeadAttention applied as `(x, x)`,
Dropout, residual add; then LayerNormalization, Conv1D(`ff_dim`, 1, relu),
Dropout, Conv1D(`inputs.shape[-1]`, 1), residual add. -/
def transformer_encoder (inputs : T) (head_size num_heads ff_dim : Nat)
    (dropout : ℚ) : T :=
  let x1 := T.layerNorm (1 / 1000000) inputs
  let x2 := T.multiHeadAttention head_size num_heads dropout x1 x1
  let x3 := T.dropoutL dropout x2
  let res := T.add x3 inputs
  let x4 := T.layerNorm (1 / 1000000) res
  let x5 := T.conv1D ff_dim 1 (some ("relu")) x4
  let x6 := T.dropoutL dropout x5
  let x7 := T.conv1D ((tshape inputs).getLastD 1) 1 none x6
  T.add x7 res

/-- `build_model(...)`: a `keras.Input`, the `for _ in
range(num_transformer_blocks)` loop over `transformer_encoder`, the
channels-first global average pooling, the `for dim in mlp_units` loop of
Dense(relu)+Dropout pairs, and the final softmax Dense. `n_classes` is a
module-level global in the notebook and is passed here as a parameter. -/
def build_model (input_shape : List Nat)
    (head_size num_heads ff_dim num_transformer_blocks : Nat)
    (mlp_units : List Nat) (n_classes : Nat) (dropout mlp_dropout : ℚ) : T :=
  let inputs := T.input input_shape
  let x := (List.range num_transformer_blocks).foldl
    (fun acc _ => transformer_encoder acc head_size num_heads ff_dim dropout)
    inputs
  let x := T.globalAvgPool1D ("channels_first") x
  let x := mlp_units.foldl
    (fun acc dim => T.dropoutL mlp_dropout (T.dense dim (some ("relu")) acc)) x
  T.dense n_classes (some ("softmax")) x

/-- Spec-side recursion: the encoder block applied `n` times in sequence. -/
def encoderTower (head_size num_heads ff_dim : Nat) (dropout : ℚ) :
    Nat → T → T
  | 0, x => x
  | n + 1, x =>
      transformer_encoder (encoderTower head_size num_heads ff_dim dropout n x)
        head_size num_heads ff_dim dropout

/-- Spec-side recursion: one Dense(relu)+Dropout pair per entry of
`mlp_units`, in order. -/
def mlpHead (mlp_dropout : ℚ) : List Nat → T → T
  | [], x => x
  | d :: ds, x =>
      mlpHead mlp_dropout ds (T.dropoutL mlp_dropout (T.dense d (some ("relu")) x))

end TimeseriesTransformer

namespace CloudTraining

/-- `GCS_BUCKET` as set in the guide's configuration cell. -/
def GCS_BUCKET : String := "YOUR_GCS_BUCKET_NAME"

/-- `JOB_NAME` as set in the guide's configuration cell. -/
def JOB_NAME : String := "mnist"

/-- `GCS_BASE_PATH = f"gs://{GCS_BUCKET}/{JOB_NAME}"`. -/
def GCS_BASE_PATH : String := "gs://" ++ GCS_BUCKET ++ "/" ++ JOB_NAME

/-- `TENSORBOARD_LOGS_DIR = os.path.join(GCS_BASE_PATH, "logs")`. -/
def TENSORBOARD_LOGS_DIR : String := GCS_BASE_PATH ++ "/logs"

/-- `MODEL_CHECKPOINT_DIR = os.path.join(GCS_BASE_PATH, "checkpoints")`. -/
def MODEL_CHECKPOINT_DIR : String := GCS_BASE_PATH ++ "/checkpoints"

/-- `SAVED_MODEL_DIR = os.path.join(GCS_BASE_PATH, "saved_model")`. -/
def SAVED_MODEL_DIR : String := GCS_BASE_PATH ++ "/saved_model"

/-- The training-related calls the guide can issue, with the arguments the
notebook passes: a `model.fit` (optionally on a truncated sample slice and
optionally with the TensorBoard/checkpoint/early-stopping callbacks) and a
`model.save`. -/
inductive CloudAction where
  | fitCall (sampleLimit : Option Nat) (epochs : Nat) (validationSplit : ℚ)
      (withCallbacks : Bool)
  | saveModel (dir : String)
deriving DecidableEq, Repr

/-- The `if not tfc.remote():` smoke-test cell: one epoch on the first 100
samples (`x_train[:100]`, `y_train[:100]`, `validation_split=0.2`). -/
def smokeTestActions (remote : Bool) : List CloudAction :=
  if !remote then [CloudAction.fitCall (some 100) 1 (1 / 5) false] else []

/-- The `if tfc.remote():` cell: callbacks configured, `model.fit` for 100
epochs with `validation_split=0.2`, then `model.save(SAVED_MODEL_DIR)`. -/
def remoteTrainActions (remote : Bool) : List CloudAction :=
  if remote then
    [CloudAction.fitCall none 100 (1 / 5) true,
     CloudAction.saveModel SAVED_MODEL_DIR]
  else []

/-- The two fit-related cells in notebook order, as a function of the one
environment flag `tfc.remote()`. -/
def fitActions (remote : Bool) : List CloudAction :=
  smokeTestActions remote ++ remoteTrainActions remote

/-- Whether an action is a `model.fit` call. -/
def isFit : CloudAction → Bool
  | .fitCall _ _ _ _ => true
  | .saveModel _ => false

/-- How many `model.fit` calls a run issues. -/
def countFits (l : List CloudAction) : Nat := (l.filter isFit).length

/-- The file name passed to `open(..., "w")`. -/
def requirementsFileName : String := "requirements.txt"

/-- The single string written into `requirements.txt`: `f.write("tensorflow-cloud\n")`. -/
def requirementsFileContent : String := "tensorflow-cloud\n"

/-- The package names a requirements file lists: its non-empty lines
(computed on the character list, one name per line). -/
def requirementLines (s : String) : List String :=
  ((s.data.splitOn ('\n')).filter fun cs => cs ≠ []).map
    fun cs => String.mk cs

/-- `TF_GPU_IMAGE` exactly as bound in the guide. -/
def TF_GPU_IMAGE : String := "gcr.io/deeplearning-platform-release/tf2-cpu.2-5"

/-- `TF_CPU_IMAGE` exactly as bound in the guide. -/
def TF_CPU_IMAGE : String := "gcr.io/deeplearning-platform-release/tf2-gpu.2-5"

/-- The `tfc.DockerConfig(...)` argument object. -/
structure DockerConfig where
  parent_image : String
  image_build_bucket : String
deriving DecidableEq, Repr

/-- The argument record of the `tfc.run(...)` call. `chief_config` is the key
into `tfc.COMMON_MACHINE_CONFIGS` the notebook uses. -/
structure RunConfig where
  distribution_strategy : String
  requirements_txt : String
  docker_config : DockerConfig
  chief_config : String
  job_labels : List (String × String)
deriving DecidableEq, Repr

/-- The `tfc.run` call of the guide, argument for argument. -/
def tfcRunCall : RunConfig :=
  { distribution_strategy := "auto"
    requirements_txt := requirementsFileName
    docker_config :=
      { parent_image := TF_GPU_IMAGE
        image_build_bucket := GCS_BUCKET }
    chief_config := "K80_1X"
    job_labels := [("job", JOB_NAME)] }

end CloudTraining

namespace NotebookSyntax

/-- Coarse statement-level skeleton of the notebooks' Python code: each
statement is recorded with its kind; compound statements carry their bodies.
`pyTry` exists so that the absence of exception handling is a provable fact
about the skeleton, not a modelling convention. -/
inductive Stmt where
  | pyImp (module : String)
  | pyAssign (target : String)
  | pyCall (callee : String)
  | pyRet (expr : String)
  | pyIf (cond : String) (body : List Stmt)
  | pyFor (body : List Stmt)
  | pyWith (ctx : String) (body : List Stmt)
  | pyDef (fname : String) (body : List Stmt)
  | pyTry (body handlers : List Stmt)

mutual

/-- Whether a statement contains a try/except block anywhere inside it. -/
def hasTry : Stmt → Bool
  | .pyImp _ => false
  | .pyAssign _ => false
  | .pyCall _ => false
  | .pyRet _ => false
  | .pyIf _ body => hasTryList body
  | .pyFor body => hasTryList body
  | .pyWith _ body => hasTryList body
  | .pyDef _ body => hasTryList body
  | .pyTry _ _ => true

/-- Whether any statement of a block contains a try/except block. -/
def hasTryList : List Stmt → Bool
  | [] => false
  | s :: rest => hasTry s || hasTryList rest

end

/-- The timeseries notebook's code cells, statement by statement. -/
def timeseriesProgram : List Stmt :=
  [Stmt.pyImp ("numpy"),
   Stmt.pyDef ("readucr")
     [Stmt.pyAssign ("data"), Stmt.pyAssign ("y"), Stmt.pyAssign ("x"),
      Stmt.pyRet ("x, y.astype(int)")],
   Stmt.pyAssign ("root_url"),
   Stmt.pyAssign ("x_train, y_train"),
   Stmt.pyAssign ("x_test, y_test"),
   Stmt.pyAssign ("x_train"),
   Stmt.pyAssign ("x_test"),
   Stmt.pyAssign ("n_classes"),
   Stmt.pyAssign ("idx"),
   Stmt.pyAssign ("x_train"),
   Stmt.pyAssign ("y_train"),
   Stmt.pyAssign ("y_train[y_train == -1]"),
   Stmt.pyAssign ("y_test[y_test == -1]"),
   Stmt.pyImp ("tensorflow.keras"),
   Stmt.pyDef ("transformer_encoder")
     [Stmt.pyAssign ("x"), Stmt.pyAssign ("x"), Stmt.pyAssign ("x"),
      Stmt.pyAssign ("res"), Stmt.pyAssign ("x"), Stmt.pyAssign ("x"),
      Stmt.pyAssign ("x"), Stmt.pyAssign ("x"), Stmt.pyRet ("x + res")],
   Stmt.pyDef ("build_model")
     [Stmt.pyAssign ("inputs"), Stmt.pyAssign ("x"),
      Stmt.pyFor [Stmt.pyAssign ("x")],
      Stmt.pyAssign ("x"),
      Stmt.pyFor [Stmt.pyAssign ("x"), Stmt.pyAssign ("x")],
      Stmt.pyAssign ("outputs"), Stmt.pyRet ("keras.Model(inputs, outputs)")],
   Stmt.pyAssign ("input_shape"),
   Stmt.pyAssign ("model"),
   Stmt.pyCall ("model.compile"),
   Stmt.pyCall ("model.summary"),
   Stmt.pyAssign ("callbacks"),
   Stmt.pyCall ("model.fit"),
   Stmt.pyCall ("model.evaluate")]

/-- The cloud-training guide's code cells, statement by statement. -/
def cloudProgram : List Stmt :=
  [Stmt.pyImp ("os"), Stmt.pyImp ("sys"),
   Stmt.pyImp ("tensorflow"), Stmt.pyImp ("tensorflow_cloud"),
   Stmt.pyAssign ("GCP_PROJECT_ID"), Stmt.pyAssign ("GCS_BUCKET"),
   Stmt.pyAssign ("REGION"), Stmt.pyAssign ("JOB_NAME"),
   Stmt.pyAssign ("GCS_BASE_PATH"), Stmt.pyAssign ("TENSORBOARD_LOGS_DIR"),
   Stmt.pyAssign ("MODEL_CHECKPOINT_DIR"), Stmt.pyAssign ("SAVED_MODEL_DIR"),
   Stmt.pyIf ("not tfc.remote()")
     [Stmt.pyIf ("kaggle_secrets in sys.modules")
        [Stmt.pyImp ("kaggle_secrets"),
         Stmt.pyCall ("UserSecretsClient().set_gcloud_credentials")],
      Stmt.pyIf ("google.colab in sys.modules")
        [Stmt.pyImp ("google.colab"),
         Stmt.pyCall ("auth.authenticate_user"),
         Stmt.pyAssign ("os.environ[GOOGLE_CLOUD_PROJECT]")]],
   Stmt.pyAssign ("(x_train, y_train), (_, _)"),
   Stmt.pyAssign ("x_train"),
   Stmt.pyAssign ("x_train"),
   Stmt.pyImp ("tensorflow.keras"),
   Stmt.pyAssign ("model"),
   Stmt.pyCall ("model.compile"),
   Stmt.pyIf ("not tfc.remote()") [Stmt.pyCall ("model.fit")],
   Stmt.pyIf ("tfc.remote()")
     [Stmt.pyAssign ("callbacks"),
      Stmt.pyCall ("model.fit"),
      Stmt.pyCall ("model.save")],
   Stmt.pyWith ("open(requirements.txt, w)") [Stmt.pyCall ("f.write")],
   Stmt.pyAssign ("TF_GPU_IMAGE"),
   Stmt.pyAssign ("TF_CPU_IMAGE"),
   Stmt.pyCall ("tfc.run")]

end NotebookSyntax

namespace Fixtures

/-- Concrete numeric parser used only by witnesses and counterexamples; it
stands in for numpy's float parsing on the handful of literals they use. -/
def parseFixture : String → ℚ := fun s =>
  if s = "-1" then -1 else if s = "1" then 1 else if s = "2" then 2 else 0

end Fixtures

namespace TimeseriesTransformer

/-- Written from the claim's wording, for comparison with `readucrFile`:
split every line of the tab-separated file on tabs and parse the fields;
`y` is column 0 of every row cast to integer, `x` is all remaining columns
of every row. -/
def readucrSpec (parse : String → ℚ) (lines : List String) :
    List (List ℚ) × List Int :=
  let rows := lines.map fun line => (line.splitOn ("\t")).map parse
  (rows.map fun row => row.tail,
   rows.map fun row => truncToInt (row.headD 0))

end TimeseriesTransformer

namespace TimeseriesTransformer

theorem chunkRowsAux_congr (k : Nat) (hk : 0 < k) :
    ∀ f1 f2 (l : List ℚ), l.length ≤ f1 → l.length ≤ f2 →
      chunkRowsAux k f1 l = chunkRowsAux k f2 l := by
  intro f1
  induction f1 with
  | zero =>
      intro f2 l h1 _
      have hl : l = [] := List.eq_nil_of_length_eq_zero (Nat.le_zero.mp h1)
      subst hl
      cases f2 <;> rfl
  | succ f ih =>
      intro f2 l h1 h2
      cases l with
      | nil => cases f2 <;> rfl
      | cons x xs =>
          cases f2 with
          | zero => simp at h2
          | succ g =>
              show (x :: xs).take k :: chunkRowsAux k f ((x :: xs).drop k)
                  = (x :: xs).take k :: chunkRowsAux k g ((x :: xs).drop k)
              have hlen : ((x :: xs).drop k).length = xs.length + 1 - k := by
                simp [List.length_drop]
              have hx1 : ((x :: xs).drop k).length ≤ f := by
                rw [hlen]
                have : xs.length + 1 ≤ f + 1 := by simpa using h1
                omega
              have hx2 : ((x :: xs).drop k).length ≤ g := by
                rw [hlen]
                have : xs.length + 1 ≤ g + 1 := by simpa using h2
                omega
              rw [ih g _ hx1 hx2]

theorem chunkRowsAux_succ_cons (k fuel : Nat) (x : ℚ) (xs : List ℚ) :
    chunkRowsAux k (fuel + 1) (x :: xs) =
      (x :: xs).take k :: chunkRowsAux k fuel ((x :: xs).drop k) := rfl

theorem chunkRows_append (t : Nat) (ht : 0 < t) (r s : List ℚ)
    (hr : r.length = t) : chunkRows t (r ++ s) = r :: chunkRows t s := by
  cases r with
  | nil =>
      rw [List.length_nil] at hr
      omega
  | cons x xs =>
      unfold chunkRows
      simp only [List.cons_append]
      rw [show (x :: (xs ++ s)).length = (xs ++ s).length + 1 from rfl,
        chunkRowsAux_succ_cons, ← List.cons_append,
        List.take_left' hr, List.drop_left' hr]
      congr 1
      exact chunkRowsAux_congr t ht _ _ s (by simp) le_rfl

theorem chunkRows_flatten (t : Nat) (ht : 0 < t) :
    ∀ m : List (List ℚ), (∀ r ∈ m, r.length = t) →
      chunkRows t m.flatten = m := by
  intro m
  induction m with
  | nil => intro _; rfl
  | cons r rows ih =>
      intro h
      rw [List.flatten_cons, chunkRows_append t ht r rows.flatten (h r (by simp)),
        ih fun q hq => h q (by simp [hq])]

theorem flatten_map_singleton (l : List ℚ) :
    (l.map fun v => ([v] : List ℚ)).flatten = l := by
  induction l with
  | nil => rfl
  | cons a l ih => simp [ih]

theorem reshape3_rect (m : List (List ℚ)) (t : Nat) (hm : m ≠ [])
    (ht : 0 < t) (hrect : ∀ r ∈ m, r.length = t) :
    reshape3 m = m.map fun row => row.map fun v => [v] := by
  cases m with
  | nil => exact absurd rfl hm
  | cons r rows =>
      have hr : r.length = t := hrect r (by simp)
      show (chunkRows r.length (r :: rows).flatten).map _ = _
      rw [hr, chunkRows_flatten t ht _ hrect]

end TimeseriesTransformer

namespace TimeseriesTransformer

theorem encoder_foldl_eq_tower (hs nh ff : Nat) (d : ℚ) :
    ∀ (n : Nat) (x : T),
      (List.range n).foldl (fun acc _ => transformer_encoder acc hs nh ff d) x
        = encoderTower hs nh ff d n x := by
  intro n
  induction n with
  | zero => intro x; rfl
  | succ n ih =>
      intro x
      rw [List.range_succ, List.foldl_append, ih]
      rfl

theorem mlp_foldl_eq_head (md : ℚ) :
    ∀ (units : List Nat) (x : T),
      units.foldl
          (fun acc dim => T.dropoutL md (T.dense dim (some ("relu")) acc)) x
        = mlpHead md units x := by
  intro units
  induction units with
  | nil => intro x; rfl
  | cons u us ih =>
      intro x
      rw [List.foldl_cons, ih]
      rfl

theorem map_getD_range_zip {α β : Type} (dx : α) (dy : β) :
    ∀ (x : List α) (y : List β), y.length = x.length →
      (List.range x.length).map (fun i => (x.getD i dx, y.getD i dy))
        = x.zip y := by
  intro x
  induction x with
  | nil => intro y _; simp
  | cons a xs ih =>
      intro y h
      cases y with
      | nil => simp at h
      | cons b ys =>
          have h2 : ys.length = xs.length := by
            simpa using h
          simp only [List.length_cons, List.range_succ_eq_map,
            List.map_cons, List.map_map, Function.comp_def,
            List.getD_cons_zero, List.getD_cons_succ, List.zip_cons_cons]
          rw [ih ys h2]

end TimeseriesTransformer

open TimeseriesTransformer CloudTraining NotebookSyntax Fixtures

/-- C1: the label remap sends every `-1` to `0` and leaves every other value
unchanged, and the preprocess cell applies it to both the (shuffled)
training labels and the test labels, so that labels drawn from the set
containing `-1` and `1` end up in the set containing `0` and `1`. -/
theorem claim_C1_label_remap (trainData testData : List (List ℚ))
    (idx : List Nat) :
    (loadAndPreprocess trainData testData idx).y_train
        = remapLabels (fancyIndex (readucr trainData).2 idx 0) ∧
    (loadAndPreprocess trainData testData idx).y_test
        = remapLabels (readucr testData).2 ∧
    (∀ y : List Int, remapLabels y = y.map fun v => if v = -1 then 0 else v) ∧
    (∀ y : List Int, (∀ v ∈ y, v = -1 ∨ v = 1) →
        ∀ v ∈ remapLabels y, v = 0 ∨ v = 1) := by
  refine ⟨rfl, rfl, fun y => rfl, ?_⟩
  intro y hy v hv
  rcases List.mem_map.mp hv with ⟨w, hw, rfl⟩
  rcases hy w hw with rfl | rfl
  · left; rfl
  · right; rfl

/-- Witness for C1 at a concrete label list drawn from the claimed value
set. -/
theorem claim_C1_label_remap_witness :
    remapLabels [-1, 1] = [0, 1] ∧ ((0 : Int) = 0 ∨ (0 : Int) = 1) :=
  ⟨by decide,
   (claim_C1_label_remap [] [] []).2.2.2 [-1, 1] (by decide) 0 (by decide)⟩

/-- C2 counterexample: with test-file rows `[[-1, 2]]`, the test label array
after the preprocess cell differs from the one `readucr` returned, so the
loaded arrays are not left unchanged by subsequent operations. -/
theorem claim_C2_immutability_counterexample :
    (loadAndPreprocess [] [[-1, 2]] []).y_test ≠ (readucr [[-1, 2]]).2 := by
  decide

/-- C2 amended: the loaded arrays are not immutable; after `readucr` returns,
the program reshapes both feature arrays, reorders the training pair by the
shared permutation `idx`, and remaps `-1` labels to `0` in both label
arrays — and these are the only changes: each final array is exactly the
corresponding composition, and every final test label is `0` or a label
`readucr` returned. -/
theorem claim_C2_immutability_amended (trainData testData : List (List ℚ))
    (idx : List Nat) :
    (loadAndPreprocess trainData testData idx).x_test
        = reshape3 (readucr testData).1 ∧
    (loadAndPreprocess trainData testData idx).y_test
        = remapLabels (readucr testData).2 ∧
    (loadAndPreprocess trainData testData idx).x_train
        = fancyIndex (reshape3 (readucr trainData).1) idx [] ∧
    (loadAndPreprocess trainData testData idx).y_train
        = remapLabels (fancyIndex (readucr trainData).2 idx 0) ∧
    (∀ v ∈ (loadAndPreprocess trainData testData idx).y_test,
        v = 0 ∨ v ∈ (readucr testData).2) := by
  refine ⟨rfl, rfl, rfl, rfl, ?_⟩
  intro v hv
  have hv2 : v ∈ remapLabels (readucr testData).2 := hv
  rcases List.mem_map.mp hv2 with ⟨w, hw, rfl⟩
  by_cases h : w = -1
  · left; simp [h]
  · right; simpa [h] using hw

/-- Witness for C2 amended at a concrete test matrix. -/
theorem claim_C2_immutability_amended_witness :
    (0 : Int) = 0 ∨ (0 : Int) ∈ (readucr [[-1, 2]]).2 :=
  (claim_C2_immutability_amended [] [[-1, 2]] []).2.2.2.2 0 (by decide)

/-- C3: the two fit cells of the cloud guide are selected by the single
`tfc.remote()` flag: remotely, callbacks-configured 100-epoch training plus
`model.save`; locally, a single one-epoch fit on the first 100 samples; and
on any one execution exactly one `model.fit` runs, the smoke-test one
exactly when the flag is false and the full one exactly when it is true. -/
theorem claim_C3_remote_branch :
    fitActions true = [CloudAction.fitCall none 100 (1 / 5) true,
      CloudAction.saveModel SAVED_MODEL_DIR] ∧
    fitActions false = [CloudAction.fitCall (some 100) 1 (1 / 5) false] ∧
    (∀ remote : Bool, countFits (fitActions remote) = 1) ∧
    (∀ remote : Bool, fitActions remote =
        if remote then
          [CloudAction.fitCall none 100 (1 / 5) true,
           CloudAction.saveModel SAVED_MODEL_DIR]
        else [CloudAction.fitCall (some 100) 1 (1 / 5) false]) := by
  refine ⟨rfl, rfl, fun remote => ?_, fun remote => ?_⟩ <;>
    cases remote <;> rfl

/-- C4: for a non-empty rectangular `(samples, timesteps)` array, the
reshape keeps the number of rows, produces rows of `timesteps` singleton
cells (shape `(samples, timesteps, 1)`), and preserves the flattened
element sequence (hence the element count); the preprocess cell applies it
to both `x_test` and (before the shuffle) `x_train`. -/
theorem claim_C4_reshape (m : List (List ℚ)) (t : Nat) (hm : m ≠ [])
    (ht : 0 < t) (hrect : ∀ r ∈ m, r.length = t) :
    (reshape3 m).length = m.length ∧
    (∀ row ∈ reshape3 m, row.length = t ∧ ∀ c ∈ row, c.length = 1) ∧
    (reshape3 m).flatten.flatten = m.flatten ∧
    (∀ trainData testData idx,
        (loadAndPreprocess trainData testData idx).x_test
            = reshape3 (readucr testData).1 ∧
        (loadAndPreprocess trainData testData idx).x_train
            = fancyIndex (reshape3 (readucr trainData).1) idx []) := by
  rw [reshape3_rect m t hm ht hrect]
  refine ⟨by simp, ?_, ?_, fun trainData testData idx => ⟨rfl, rfl⟩⟩
  · intro row hrow
    rcases List.mem_map.mp hrow with ⟨r, hr, rfl⟩
    constructor
    · rw [List.length_map]
      exact hrect r hr
    · intro c hc
      rcases List.mem_map.mp hc with ⟨v, _, rfl⟩
      rfl
  · show ((m.map (List.map fun v => ([v] : List ℚ))).flatten).flatten
        = m.flatten
    rw [← List.map_flatten, flatten_map_singleton]

/-- Witness for C4 at a concrete 2-by-2 matrix. -/
theorem claim_C4_reshape_witness :
    (reshape3 [[1, 2], [3, 4]]).length = 2 ∧
    (reshape3 [[1, 2], [3, 4]]).flatten.flatten = [1, 2, 3, 4] := by
  have h := claim_C4_reshape [[1, 2], [3, 4]] 2 (by decide) (by decide)
    (by decide)
  exact ⟨h.1, h.2.2.1.trans (by decide)⟩

/-- C5: `build_model` is straight sequential composition: for every
`num_transformer_blocks` it equals the `transformer_encoder` block applied
that many times in sequence to the input, followed by the fixed head —
channels-first global average pooling, one Dense(relu)+Dropout pair per
entry of `mlp_units` in order, and a final softmax Dense of `n_classes`
units. -/
theorem claim_C5_build_model (input_shape : List Nat)
    (head_size num_heads ff_dim num_transformer_blocks : Nat)
    (mlp_units : List Nat) (n_classes : Nat) (dropout mlp_dropout : ℚ) :
    build_model input_shape head_size num_heads ff_dim
        num_transformer_blocks mlp_units n_classes dropout mlp_dropout =
      T.dense n_classes (some ("softmax"))
        (mlpHead mlp_dropout mlp_units
          (T.globalAvgPool1D ("channels_first")
            (encoderTower head_size num_heads ff_dim dropout
              num_transformer_blocks (T.input input_shape)))) := by
  show T.dense n_classes (some ("softmax"))
      ((mlp_units.foldl
        (fun acc dim => T.dropoutL mlp_dropout (T.dense dim (some ("relu")) acc))
        (T.globalAvgPool1D ("channels_first")
          ((List.range num_transformer_blocks).foldl
            (fun acc _ =>
              transformer_encoder acc head_size num_heads ff_dim dropout)
            (T.input input_shape))))) = _
  rw [encoder_foldl_eq_tower, mlp_foldl_eq_head]

/-- C6: `readucr` on the lines of a tab-separated file equals the
claim-side description `readucrSpec`: `y` is column 0 of every row cast to
integer, `x` is all remaining columns of every row, and both outputs have
one entry per input line. -/
theorem claim_C6_readucr_columns (parse : String → ℚ)
    (lines : List String) :
    readucrFile parse lines = readucrSpec parse lines ∧
    (readucrFile parse lines).1.length = lines.length ∧
    (readucrFile parse lines).2.length = lines.length := by
  refine ⟨?_, by simp [readucrFile, readucr, loadtxtTab],
    by simp [readucrFile, readucr, loadtxtTab]⟩
  simp only [readucrFile, readucr, readucrSpec, loadtxtTab, List.map_map]
  refine Prod.ext ?_ ?_
  · simp [Function.comp_def, List.drop_one]
  · simp [Function.comp_def]

/-- C7: the cloud guide writes `requirements.txt` with content exactly the
single line `tensorflow-cloud` followed by a newline, so the file lists
exactly one package name. -/
theorem claim_C7_requirements :
    requirementsFileName = "requirements.txt" ∧
    requirementsFileContent = "tensorflow-cloud" ++ "\n" ∧
    requirementLines requirementsFileContent = ["tensorflow-cloud"] ∧
    tfcRunCall.requirements_txt = requirementsFileName :=
  ⟨rfl, rfl, by decide, rfl⟩

/-- C8: neither notebook skeleton contains a try/except statement at any
nesting depth, so no library call site is wrapped in exception handling. -/
theorem claim_C8_no_exception_handling :
    hasTryList timeseriesProgram = false ∧
    hasTryList cloudProgram = false :=
  ⟨rfl, rfl⟩

/-- C9: indexing the training features and labels with one and the same
permutation `idx` of `range(len(x_train))` preserves the pairing of samples
with labels: the zipped list after the shuffle is a permutation (equal as a
multiset) of the zipped list before it. -/
theorem claim_C9_shuffle_pairing (x : List (List (List ℚ))) (y : List Int)
    (idx : List Nat) (hperm : List.Perm idx (List.range x.length))
    (hlen : y.length = x.length) :
    List.Perm ((fancyIndex x idx []).zip (fancyIndex y idx 0)) (x.zip y) := by
  unfold fancyIndex
  rw [List.zip_map']
  have h2 := hperm.map fun i => (x.getD i [], y.getD i 0)
  rwa [map_getD_range_zip [] 0 x y hlen] at h2

/-- Witness for C9 at a two-sample training set and the swap permutation. -/
theorem claim_C9_shuffle_pairing_witness :
    List.Perm
      ((fancyIndex [[[1]], [[2]]] [1, 0] ([] : List (List ℚ))).zip
        (fancyIndex [3, 4] [1, 0] (0 : Int)))
      ([[[1]], [[2]]].zip [3, 4]) :=
  claim_C9_shuffle_pairing [[[1]], [[2]]] [3, 4] [1, 0] (by decide)
    (by decide)

/-- C10: the constant named `TF_GPU_IMAGE` is bound to the tf2-cpu image
string and `TF_CPU_IMAGE` to the tf2-gpu image string, and the submitted
job's `parent_image` is `TF_GPU_IMAGE`, i.e. the tf2-cpu image, while the
requested machine configuration is the GPU profile `K80_1X`. -/
theorem claim_C10_image_swap :
    TF_GPU_IMAGE = "gcr.io/deeplearning-platform-release/tf2-cpu.2-5" ∧
    TF_CPU_IMAGE = "gcr.io/deeplearning-platform-release/tf2-gpu.2-5" ∧
    tfcRunCall.docker_config.parent_image = TF_GPU_IMAGE ∧
    tfcRunCall.docker_config.parent_image
        = "gcr.io/deeplearning-platform-release/tf2-cpu.2-5" ∧
    tfcRunCall.chief_config = "K80_1X" :=
  ⟨rfl, rfl, rfl, rfl, rfl⟩
